import Mathlib

/-!
Shallow embedding of the `passport-tosan` strategy (src/lib/strategy.js and
src/lib/errors/tosantokenerror.js) in Lean 4, together with theorems settling
the specification claims about it.

Modelling conventions:
* JavaScript query-parameter and option fields that may be `undefined` are
  `Option` values; `none` models `undefined`.
* JavaScript truthiness of a string-valued field (`undefined` and `""` are
  falsy) is `truthyStr`.
* Parsed JSON documents are values of the inductive `Json`; the constructor
  `Json.undefined` models the JavaScript `undefined` produced by accessing a
  missing property (it never occurs inside a freshly parsed document).
* `JSON.parse` itself is abstracted: claims quantified over "bodies that
  parse as JSON" are stated over the parsed `Json` value.
* Byte strings (Node `Buffer` contents) are `List Nat` with entries < 256.
-/

/-- Parsed JSON values, extended with `undefined` for JavaScript `undefined`
(the result of reading an absent object property). -/
inductive Json where
  | null
  | undefined
  | bool (b : Bool)
  | num (n : Int)
  | str (s : String)
  | arr (elems : List Json)
  | obj (fields : List (String × Json))

/-- Property lookup `j[k]` in JavaScript: the first binding of `k` in an
object, `undefined` otherwise. -/
def jsGet (j : Json) (k : String) : Json :=
  match j with
  | .obj fields => ((fields.find? (fun p => p.1 = k)).map Prod.snd).getD .undefined
  | _ => .undefined

/-- JavaScript truthiness of a `Json` value (`null`, `undefined`, `false`,
`0` and `""` are falsy; every array and object is truthy). -/
def jsTruthy (j : Json) : Bool :=
  match j with
  | .null => false
  | .undefined => false
  | .bool b => b
  | .num n => n != 0
  | .str s => s != ""
  | .arr _ => true
  | .obj _ => true

/-- Whether `typeof j == 'object'` holds in JavaScript: true for `null`,
arrays and objects. -/
def jsTypeofObject (j : Json) : Bool :=
  match j with
  | .null => true
  | .arr _ => true
  | .obj _ => true
  | _ => false

/-- Whether a JavaScript value is a genuine object, i.e. truthy with
`typeof` equal to `'object'`: in JSON terms an object or an array (`null`
has `typeof` `'object'` but is falsy). -/
def isJsObject (j : Json) : Bool :=
  match j with
  | .obj _ => true
  | .arr _ => true
  | _ => false

/-- JavaScript truthiness of an optional string (an absent field and the
empty string are falsy). -/
def truthyStr : Option String → Bool
  | none => false
  | some s => s != ""

/-- The JavaScript defaulting idiom `x || d` on an optional string field. -/
def defaultStr (v : Option String) (d : String) : String :=
  match v with
  | none => d
  | some s => if s = "" then d else s

/-- Leading decimal digits of a character list folded into a number; `none`
when there is no leading digit (`parseInt` returns `NaN`). -/
def parseLeadingDigits (cs : List Char) : Option Nat :=
  match cs.takeWhile Char.isDigit with
  | [] => none
  | ds => some (ds.foldl (fun a c => a * 10 + (c.toNat - 48)) 0)

/-- JavaScript `parseInt(s, 10)`: skip leading whitespace, read an optional
sign and then leading decimal digits; `none` models the `NaN` result. -/
def jsParseInt (s : String) : Option Int :=
  let cs := s.data.dropWhile (fun c => c = ' ' || c = '\t' || c = '\n' || c = '\r')
  match cs with
  | '-' :: rest => (parseLeadingDigits rest).map (fun n => -(n : Int))
  | '+' :: rest => (parseLeadingDigits rest).map (fun n => (n : Int))
  | rest => (parseLeadingDigits rest).map (fun n => (n : Int))

/-- The options record passed to the `Strategy` constructor; every field is
optional (`none` models an absent field). -/
structure Options where
  sandbox : Option Bool := none
  bankId : Option String := none
  boomToken : Option String := none
  deviceId : Option String := none
  state : Option String := none
  clientID : Option String := none
  clientSecret : Option String := none
  authorizationURL : Option String := none
  tokenURL : Option String := none
  scope : Option String := none
  scopeSeparator : Option String := none
  callbackURL : Option String := none
  profileURL : Option String := none

/-- The fully populated configuration produced by the constructor. -/
structure Config where
  sandbox : Bool
  bankId : String
  boomToken : String
  deviceId : String
  state : String
  clientID : String
  clientSecret : String
  authorizationURL : String
  tokenURL : String
  scope : String
  scopeSeparator : String
  callbackURL : String
  profileURL : String

/-- Lines 55-68 of src/lib/strategy.js: coerce `sandbox` to a boolean and
fill every other field with its default via `x || d`. -/
def applyDefaults (o : Options) : Config where
  sandbox := o.sandbox.getD false
  bankId := defaultStr o.bankId "ANSBIR"
  boomToken := defaultStr o.boomToken ""
  deviceId := defaultStr o.deviceId ""
  state := defaultStr o.state "1"
  clientID := defaultStr o.clientID ""
  clientSecret := defaultStr o.clientSecret ""
  authorizationURL := defaultStr o.authorizationURL "https://app.tosanboom.com:4433/oauth/authorize"
  tokenURL := defaultStr o.tokenURL "https://app.tosanboom.com:4433/oauth/token"
  scope := defaultStr o.scope ""
  scopeSeparator := defaultStr o.scopeSeparator ","
  callbackURL := defaultStr o.callbackURL ""
  profileURL := defaultStr o.profileURL "https://app.tosanboom.com:4432/v1/accounts"

/-- Lines 70-71 of src/lib/strategy.js: outside sandbox mode an `"ANSBIR"`
bank id is overwritten to `"BOOMIR"`. -/
def bankRemap (c : Config) : Config :=
  if !c.sandbox && c.bankId = "ANSBIR" then { c with bankId := "BOOMIR" } else c

/-- The `Strategy` constructor (lines 54-95): defaulting followed by the
bank-id remap.  The derived Basic-Auth header is modelled separately at the
byte level (`basicAuthValue`). -/
def Strategy.init (o : Options) : Config :=
  bankRemap (applyDefaults o)

/-- The record built by the `TosanTokenError` constructor
(src/lib/errors/tosantokenerror.js lines 18-27).  Field values are stored
verbatim; `status` and `name` are fixed by the constructor body. -/
structure TosanTokenError where
  name : String
  message : Json
  type : Json
  code : Json
  subcode : Json
  status : Nat

/-- Calls the `TosanTokenError` constructor with the four arguments. -/
def mkTosanTokenError (message type code subcode : Json) : TosanTokenError where
  name := "TosanTokenError"
  message := message
  type := type
  code := code
  subcode := subcode
  status := 500

/-- The record built by the `TosanAuthorizationError` constructor
(src/lib/errors/tosantokenerror.js lines 54-61).  `code` is `none` when the
constructor received `NaN` from `parseInt`. -/
structure TosanAuthorizationError where
  name : String
  message : Option String
  code : Option Int
  status : Nat

/-- Calls the `TosanAuthorizationError` constructor with the two arguments. -/
def mkTosanAuthorizationError (message : Option String) (code : Option Int) :
    TosanAuthorizationError where
  name := "TosanAuthorizationError"
  message := message
  code := code
  status := 500

/-- A value appearing in the authorization-parameter map (the `sandbox`
entry is a boolean, the rest are strings). -/
inductive ParamVal where
  | str (s : String)
  | bool (b : Bool)

/-- Lines 111-121 of src/lib/strategy.js: the extra query parameters for the
authorization redirect, as an ordered key-value list. -/
def Strategy.authorizationParams (c : Config) : List (String × ParamVal) :=
  [ ("device_id", .str c.deviceId),
    ("state", .str c.state),
    ("sandbox", .bool c.sandbox),
    ("bank_id", .str c.bankId),
    ("boom_token", .str c.boomToken),
    ("response_type", .str "code"),
    ("client_id", .str c.clientID) ]

/-- The query parameters of an inbound authenticate request that the
strategy inspects; `none` models an absent parameter. -/
structure Query where
  error_code : Option String := none
  error : Option String := none
  error_message : Option String := none
  bank_id : Option String := none

/-- Outcome of `Strategy.prototype.authenticate` before the base class takes
over: either the non-standard error interception fires, or the standard flow
proceeds with the (possibly query-overwritten) bank id. -/
inductive AuthOutcome where
  | failWith (e : TosanAuthorizationError)
  | delegate (bankId : String)

/-- Lines 131-146 of src/lib/strategy.js: if the query is present and carries
a truthy `error_code` and no truthy `error`, fail with a
`TosanAuthorizationError` built from `error_message` and
`parseInt(error_code, 10)`; otherwise optionally overwrite the bank id from
the query and delegate to the base class. -/
def Strategy.authenticate (c : Config) (q : Option Query) : AuthOutcome :=
  match q with
  | none => .delegate c.bankId
  | some q =>
    if truthyStr q.error_code && !truthyStr q.error then
      .failWith (mkTosanAuthorizationError q.error_message
        (jsParseInt (q.error_code.getD "")))
    else if truthyStr q.bank_id then
      .delegate (q.bank_id.getD "")
    else
      .delegate c.bankId

/-- Result of parsing a failed token-endpoint response: a Tosan-specific
error, or delegation to the base class parser. -/
inductive TokenErrResult where
  | tosan (e : TosanTokenError)
  | delegate

/-- Lines 157-164 of src/lib/strategy.js, on the already-parsed body: when
`json.error` is truthy and `typeof json.error == 'object'` build a
`TosanTokenError` from its fields, otherwise delegate to the base parser. -/
def Strategy.parseErrorResponse (json : Json) : TokenErrResult :=
  let e := jsGet json "error"
  if jsTruthy e && jsTypeofObject e then
    .tosan (mkTosanTokenError (jsGet e "message") (jsGet e "type")
      (jsGet e "code") (jsGet e "error_subcode"))
  else
    .delegate

/-- Outcome of the transport-error branch of `userProfile`:
`referenceError` marks the call of the undefined constructor
`BoomrangAPIError` on line 193 (a ReferenceError at runtime), the other
constructor is the `InternalOAuthError` wrapper of line 195. -/
inductive ProfileErrOutcome where
  | referenceError
  | internalOAuthError (message : String)

/-- Lines 184-195 of src/lib/strategy.js: the error branch of the profile
fetch.  The input is the parsed `err.data` body, `none` when `err.data` is
absent or is not valid JSON.  When the parsed body has a truthy
object-typed `error` field, line 193 evaluates `new BoomrangAPIError(...)`,
but `BoomrangAPIError` is defined nowhere in the repository, so that path
throws a ReferenceError instead of invoking the callback. -/
def Strategy.userProfileOnError (errData : Option Json) : ProfileErrOutcome :=
  match errData with
  | some json =>
    if jsTruthy (jsGet json "error") && jsTypeofObject (jsGet json "error") then
      .referenceError
    else
      .internalOAuthError "Failed to fetch user profile"
  | none => .internalOAuthError "Failed to fetch user profile"

/-- JavaScript property assignment `o[k] = v` on an object's field list:
replace the first binding of `k` in place, or append a new binding. -/
def setField : List (String × Json) → String → Json → List (String × Json)
  | [], k, v => [(k, v)]
  | (k', v') :: rest, k, v =>
    if k' = k then (k, v) :: rest else (k', v') :: setField rest k v

/-- First binding of a key in an object's field list. -/
def lookupField : List (String × Json) → String → Option Json
  | [], _ => none
  | (k', v') :: rest, k => if k' = k then some v' else lookupField rest k

/-- Lines 204-211 of src/lib/strategy.js, on the parsed profile object's
field list: set `provider` to `"tosan"` and set `bankId` to `"ANSBIR"` when
the configured bank id is `"BOOMIR"` and to the configured bank id
otherwise. -/
def normalizeProfile (bankId : String) (fields : List (String × Json)) :
    List (String × Json) :=
  let withProvider := setField fields "provider" (.str "tosan")
  if bankId = "BOOMIR" then
    setField withProvider "bankId" (.str "ANSBIR")
  else
    setField withProvider "bankId" (.str bankId)

/-- The 64 characters of the standard Base64 alphabet. -/
def b64Alphabet : List Char :=
  "ABCDEFGHIJKLMNOPQRSTUVWXYZabcdefghijklmnopqrstuvwxyz0123456789+/".data

/-- Base64 digit character for a 6-bit value. -/
def b64Char (n : Nat) : Char :=
  b64Alphabet.getD n 'A'

/-- Position of a character in the Base64 alphabet (0 when absent). -/
def indexIn : List Char → Char → Nat
  | [], _ => 0
  | a :: rest, c => if a = c then 0 else 1 + indexIn rest c

/-- Six-bit value of a Base64 digit character. -/
def b64Index (c : Char) : Nat :=
  indexIn b64Alphabet c

/-- Base64 encoding of a byte list, with `=` padding, as Node's
`Buffer.prototype.toString('base64')` produces it. -/
def b64Encode : List Nat → List Char
  | [] => []
  | [a] =>
    [b64Char (a / 4), b64Char (a % 4 * 16), '=', '=']
  | [a, b] =>
    [b64Char (a / 4), b64Char (a % 4 * 16 + b / 16), b64Char (b % 16 * 4), '=']
  | a :: b :: c :: rest =>
    b64Char (a / 4) :: b64Char (a % 4 * 16 + b / 16) ::
      b64Char (b % 16 * 4 + c / 64) :: b64Char (c % 64) :: b64Encode rest

/-- Base64 decoding back to a byte list; a chunk ending in `=` padding is
final. -/
def b64Decode : List Char → List Nat
  | c1 :: c2 :: c3 :: c4 :: rest =>
    if c4 = '=' then
      if c3 = '=' then
        [b64Index c1 * 4 + b64Index c2 / 16]
      else
        [b64Index c1 * 4 + b64Index c2 / 16,
         b64Index c2 % 16 * 16 + b64Index c3 / 4]
    else
      (b64Index c1 * 4 + b64Index c2 / 16) ::
        (b64Index c2 % 16 * 16 + b64Index c3 / 4) ::
        (b64Index c3 % 4 * 64 + b64Index c4) :: b64Decode rest
  | _ => []

/-- Lines 73-76 of src/lib/strategy.js at the byte level: the Basic-Auth
header value is the Base64 encoding of the bytes of
`clientID + ':' + clientSecret` (58 is the UTF-8 byte of `:`; UTF-8 encoding
of a concatenation is the concatenation of the encodings, so the two
operands are taken as byte lists). -/
def basicAuthValue (clientID clientSecret : List Nat) : List Char :=
  b64Encode (clientID ++ 58 :: clientSecret)

/-! ### Helper lemmas -/

theorem b64_index_char : ∀ n, n < 64 → b64Index (b64Char n) = n := by decide

theorem b64_char_ne_pad : ∀ n, n < 64 → b64Char n ≠ '=' := by decide

theorem b64Decode_pad2 (c1 c2 : Char) :
    b64Decode [c1, c2, '=', '='] = [b64Index c1 * 4 + b64Index c2 / 16] := by
  simp [b64Decode]

theorem b64Decode_pad1 (c1 c2 c3 : Char) (h : c3 ≠ '=') :
    b64Decode [c1, c2, c3, '='] =
      [b64Index c1 * 4 + b64Index c2 / 16,
       b64Index c2 % 16 * 16 + b64Index c3 / 4] := by
  simp [b64Decode, h]

theorem b64Decode_full (c1 c2 c3 c4 : Char) (rest : List Char) (h : c4 ≠ '=') :
    b64Decode (c1 :: c2 :: c3 :: c4 :: rest) =
      (b64Index c1 * 4 + b64Index c2 / 16) ::
        (b64Index c2 % 16 * 16 + b64Index c3 / 4) ::
        (b64Index c3 % 4 * 64 + b64Index c4) :: b64Decode rest := by
  simp [b64Decode, h]

theorem b64_decode_encode :
    ∀ bs : List Nat, (∀ b ∈ bs, b < 256) → b64Decode (b64Encode bs) = bs := by
  intro bs
  induction bs using b64Encode.induct with
  | case1 =>
    intro _
    rfl
  | case2 a =>
    intro h
    have ha : a < 256 := h a (by simp)
    rw [b64Encode, b64Decode_pad2, b64_index_char _ (by omega),
      b64_index_char _ (by omega)]
    simp only [List.cons.injEq, and_true]
    omega
  | case3 a b =>
    intro h
    have ha : a < 256 := h a (by simp)
    have hb : b < 256 := h b (by simp)
    rw [b64Encode, b64Decode_pad1 _ _ _ (b64_char_ne_pad (b % 16 * 4) (by omega)),
      b64_index_char _ (by omega), b64_index_char _ (by omega),
      b64_index_char _ (by omega)]
    simp only [List.cons.injEq, and_true]
    omega
  | case4 a b c rest ih =>
    intro h
    have ha : a < 256 := h a (by simp)
    have hb : b < 256 := h b (by simp)
    have hc : c < 256 := h c (by simp)
    have hrest : ∀ x ∈ rest, x < 256 := fun x hx => h x (by simp [hx])
    rw [b64Encode, b64Decode_full _ _ _ _ _ (b64_char_ne_pad (c % 64) (by omega)),
      b64_index_char _ (by omega), b64_index_char _ (by omega),
      b64_index_char _ (by omega), b64_index_char _ (by omega), ih hrest]
    simp only [List.cons.injEq, and_true]
    omega

theorem lookup_setField_self (l : List (String × Json)) (k : String) (v : Json) :
    lookupField (setField l k v) k = some v := by
  induction l with
  | nil => simp [setField, lookupField]
  | cons p rest ih =>
    obtain ⟨k', v'⟩ := p
    by_cases hk : k' = k
    · simp [setField, lookupField, hk]
    · simp [setField, lookupField, hk, ih]

theorem lookup_setField_ne (l : List (String × Json)) (k k' : String) (v : Json)
    (h : ¬k' = k) : lookupField (setField l k' v) k = lookupField l k := by
  induction l with
  | nil => simp [setField, lookupField, h]
  | cons p rest ih =>
    obtain ⟨k'', v''⟩ := p
    by_cases hk : k'' = k'
    · subst hk
      rw [setField, if_pos rfl, lookupField, lookupField, if_neg h, if_neg h]
    · rw [setField, if_neg hk, lookupField, lookupField]
      by_cases hk2 : k'' = k
      · rw [if_pos hk2, if_pos hk2]
      · rw [if_neg hk2, if_neg hk2, ih]

theorem setField_of_lookup (l : List (String × Json)) (k : String) (v : Json)
    (h : lookupField l k = some v) : setField l k v = l := by
  induction l with
  | nil => simp [lookupField] at h
  | cons p rest ih =>
    obtain ⟨k', v'⟩ := p
    by_cases hk : k' = k
    · subst hk
      rw [lookupField, if_pos rfl] at h
      rw [setField, if_pos rfl]
      rw [Option.some.injEq] at h
      rw [h]
    · rw [lookupField, if_neg hk] at h
      rw [setField, if_neg hk, ih h]

/-! ### Claim theorems -/

/-- C1: authenticate short-circuits with a `TosanAuthorizationError` built
from the query's `error_message` and the integer-parsed `error_code`
exactly when the query carries a (non-empty) `error_code` value and no
(non-empty) standard `error` value; in particular, when both `error_code`
and `error` carry values the interception does not trigger and the standard
flow proceeds. -/
theorem authenticate_intercept_iff (c : Config) (q : Query) :
    (Strategy.authenticate c (some q) =
        .failWith (mkTosanAuthorizationError q.error_message
          (jsParseInt (q.error_code.getD ""))) ↔
      (truthyStr q.error_code = true ∧ truthyStr q.error = false))
    ∧ (truthyStr q.error_code = true → truthyStr q.error = true →
        ∃ b, Strategy.authenticate c (some q) = .delegate b) := by
  rcases hec : truthyStr q.error_code <;> rcases he : truthyStr q.error <;>
    rcases hb : truthyStr q.bank_id <;>
      simp [Strategy.authenticate, hec, he, hb]

/-- C1 witness: the request `error_code=42&error_message=bad` with no
`error` parameter is intercepted with code 42 and message "bad". -/
theorem authenticate_intercept_iff_witness :
    Strategy.authenticate (Strategy.init {})
        (some { error_code := some "42", error_message := some "bad" }) =
      .failWith (mkTosanAuthorizationError (some "bad") (some 42)) := by
  have h := (authenticate_intercept_iff (Strategy.init {})
    { error_code := some "42", error_message := some "bad" }).1.mpr (by decide)
  exact h

/-- C2: parsing a token-endpoint error body yields a `TosanTokenError`
built from the error object's `message`, `type`, `code` and `error_subcode`
fields exactly when the body's `error` field is itself an object (in the
JavaScript sense: truthy with `typeof` `'object'`); otherwise (e.g. a
spec-conformant string-valued `error`) it delegates to the standard OAuth2
error parser and constructs no `TosanTokenError`. -/
theorem parseErrorResponse_iff (json : Json) :
    (Strategy.parseErrorResponse json =
        .tosan (mkTosanTokenError (jsGet (jsGet json "error") "message")
          (jsGet (jsGet json "error") "type") (jsGet (jsGet json "error") "code")
          (jsGet (jsGet json "error") "error_subcode")) ↔
      isJsObject (jsGet json "error") = true)
    ∧ (isJsObject (jsGet json "error") = false →
        Strategy.parseErrorResponse json = .delegate) := by
  cases he : jsGet json "error" <;>
    simp [Strategy.parseErrorResponse, isJsObject, jsTruthy, jsTypeofObject, he]

/-- C2 witness: the body with error fields m, t, 1, 2 yields the
corresponding `TosanTokenError`. -/
theorem parseErrorResponse_iff_witness :
    Strategy.parseErrorResponse (.obj [("error",
        .obj [("message", .str "m"), ("type", .str "t"), ("code", .num 1),
          ("error_subcode", .num 2)])]) =
      .tosan (mkTosanTokenError (.str "m") (.str "t") (.num 1) (.num 2)) := by
  have h := (parseErrorResponse_iff (.obj [("error",
    .obj [("message", .str "m"), ("type", .str "t"), ("code", .num 1),
      ("error_subcode", .num 2)])])).1.mpr (by decide)
  exact h

/-- C3: with effective sandbox false and no configured bank id the internal
bank id is "BOOMIR" while the profile reports "ANSBIR"; and whenever the
internal bank id is "BOOMIR" the reported value is "ANSBIR". -/
theorem bankId_obfuscation :
    (∀ (o : Options) (fs : List (String × Json)),
        o.sandbox.getD false = false → o.bankId = none →
        (Strategy.init o).bankId = "BOOMIR" ∧
        lookupField (normalizeProfile (Strategy.init o).bankId fs) "bankId" =
          some (.str "ANSBIR")) ∧
    (∀ (b : String) (fs : List (String × Json)), b = "BOOMIR" →
        lookupField (normalizeProfile b fs) "bankId" = some (.str "ANSBIR")) := by
  have hrep : ∀ fs : List (String × Json),
      lookupField (normalizeProfile "BOOMIR" fs) "bankId" = some (.str "ANSBIR") := by
    intro fs
    simp [normalizeProfile, lookup_setField_self]
  refine ⟨?_, ?_⟩
  · intro o fs h1 h2
    have hbank : (Strategy.init o).bankId = "BOOMIR" := by
      simp [Strategy.init, applyDefaults, bankRemap, defaultStr, h1, h2]
    exact ⟨hbank, by rw [hbank]; exact hrep fs⟩
  · intro b fs hbv
    subst hbv
    exact hrep fs

/-- C3 witness: sandbox explicitly false and bank id absent. -/
theorem bankId_obfuscation_witness :
    (Strategy.init { sandbox := some false }).bankId = "BOOMIR" ∧
    lookupField (normalizeProfile (Strategy.init { sandbox := some false }).bankId [])
      "bankId" = some (.str "ANSBIR") :=
  bankId_obfuscation.1 { sandbox := some false } [] rfl rfl

/-- C4 counterexample: with `sandbox = true` and configured bank id
"BOOMIR" the internal bank id equals the configured value but the profile
reports "ANSBIR", so internal and reported values do not both equal the
configured one: the remapping does occur in sandbox mode. -/
theorem sandbox_no_remap_cex :
    (Strategy.init { sandbox := some true, bankId := some "BOOMIR" }).bankId =
      "BOOMIR" ∧
    lookupField (normalizeProfile
        (Strategy.init { sandbox := some true, bankId := some "BOOMIR" }).bankId [])
      "bankId" = some (.str "ANSBIR") ∧
    ("ANSBIR" : String) ≠ "BOOMIR" :=
  ⟨rfl, rfl, by decide⟩

/-- C4 (amended): with `sandbox = true` and a configured bank id that is
non-empty and different from "BOOMIR", no remapping occurs: the internal
bank id and the reported profile bank id both equal the configured value. -/
theorem sandbox_no_remap (o : Options) (s : String) (fs : List (String × Json))
    (h1 : o.sandbox = some true) (h2 : o.bankId = some s) (h3 : s ≠ "")
    (h4 : s ≠ "BOOMIR") :
    (Strategy.init o).bankId = s ∧
    lookupField (normalizeProfile (Strategy.init o).bankId fs) "bankId" =
      some (.str s) := by
  have hbank : (Strategy.init o).bankId = s := by
    simp [Strategy.init, applyDefaults, bankRemap, defaultStr, h1, h2, h3]
  refine ⟨hbank, ?_⟩
  rw [hbank]
  simp [normalizeProfile, h4, lookup_setField_self]

/-- C4 witness: a sandbox configuration with bank id "TESTBK". -/
theorem sandbox_no_remap_witness :
    (Strategy.init { sandbox := some true, bankId := some "TESTBK" }).bankId =
      "TESTBK" ∧
    lookupField (normalizeProfile
        (Strategy.init { sandbox := some true, bankId := some "TESTBK" }).bankId [])
      "bankId" = some (.str "TESTBK") :=
  sandbox_no_remap { sandbox := some true, bankId := some "TESTBK" } "TESTBK" []
    rfl rfl (by decide) (by decide)

/-- C5: for arbitrary client id and secret byte strings (byte 58 is `:`),
Base64-decoding the derived Basic-Auth header value gives back exactly the
bytes of `clientID ++ ":" ++ clientSecret`. -/
theorem basicAuth_roundtrip (clientID clientSecret : List Nat)
    (h1 : ∀ b ∈ clientID, b < 256) (h2 : ∀ b ∈ clientSecret, b < 256) :
    b64Decode (basicAuthValue clientID clientSecret) =
      clientID ++ 58 :: clientSecret := by
  apply b64_decode_encode
  intro b hb
  rcases List.mem_append.1 hb with hmem | hmem
  · exact h1 b hmem
  · rcases List.mem_cons.1 hmem with hb58 | hmem2
    · omega
    · exact h2 b hmem2

/-- C5 witness: a client id whose bytes contain `:` (58) round-trips. -/
theorem basicAuth_roundtrip_witness :
    (∀ b ∈ [97, 58, 98], b < 256) ∧
    b64Decode (basicAuthValue [97, 58, 98] [99]) = [97, 58, 98, 58, 99] :=
  ⟨by decide, basicAuth_roundtrip [97, 58, 98] [99] (by decide) (by decide)⟩

/-- C6: the configuration normalizer coerces `sandbox` to a boolean and
fills every absent field with its documented default, and it is total: no
input is rejected. -/
theorem applyDefaults_fills_defaults (o : Options) :
    (applyDefaults o).sandbox = o.sandbox.getD false
    ∧ (o.bankId = none → (applyDefaults o).bankId = "ANSBIR")
    ∧ (o.boomToken = none → (applyDefaults o).boomToken = "")
    ∧ (o.deviceId = none → (applyDefaults o).deviceId = "")
    ∧ (o.state = none → (applyDefaults o).state = "1")
    ∧ (o.clientID = none → (applyDefaults o).clientID = "")
    ∧ (o.clientSecret = none → (applyDefaults o).clientSecret = "")
    ∧ (o.authorizationURL = none →
        (applyDefaults o).authorizationURL = "https://app.tosanboom.com:4433/oauth/authorize")
    ∧ (o.tokenURL = none →
        (applyDefaults o).tokenURL = "https://app.tosanboom.com:4433/oauth/token")
    ∧ (o.scope = none → (applyDefaults o).scope = "")
    ∧ (o.scopeSeparator = none → (applyDefaults o).scopeSeparator = ",")
    ∧ (o.callbackURL = none → (applyDefaults o).callbackURL = "")
    ∧ (o.profileURL = none →
        (applyDefaults o).profileURL = "https://app.tosanboom.com:4432/v1/accounts") := by
  refine ⟨rfl, ?_, ?_, ?_, ?_, ?_, ?_, ?_, ?_, ?_, ?_, ?_, ?_⟩ <;>
    (intro h; simp [applyDefaults, defaultStr, h])

/-- C6 witness: the empty options record receives every default. -/
theorem applyDefaults_fills_defaults_witness :
    (applyDefaults {}).sandbox = false
    ∧ (applyDefaults {}).bankId = "ANSBIR"
    ∧ (applyDefaults {}).boomToken = ""
    ∧ (applyDefaults {}).deviceId = ""
    ∧ (applyDefaults {}).state = "1"
    ∧ (applyDefaults {}).clientID = ""
    ∧ (applyDefaults {}).clientSecret = ""
    ∧ (applyDefaults {}).authorizationURL = "https://app.tosanboom.com:4433/oauth/authorize"
    ∧ (applyDefaults {}).tokenURL = "https://app.tosanboom.com:4433/oauth/token"
    ∧ (applyDefaults {}).scope = ""
    ∧ (applyDefaults {}).scopeSeparator = ","
    ∧ (applyDefaults {}).callbackURL = ""
    ∧ (applyDefaults {}).profileURL = "https://app.tosanboom.com:4432/v1/accounts" := by
  have h := applyDefaults_fills_defaults {}
  exact ⟨h.1, h.2.1 rfl, h.2.2.1 rfl, h.2.2.2.1 rfl, h.2.2.2.2.1 rfl,
    h.2.2.2.2.2.1 rfl, h.2.2.2.2.2.2.1 rfl, h.2.2.2.2.2.2.2.1 rfl,
    h.2.2.2.2.2.2.2.2.1 rfl, h.2.2.2.2.2.2.2.2.2.1 rfl,
    h.2.2.2.2.2.2.2.2.2.2.1 rfl, h.2.2.2.2.2.2.2.2.2.2.2.1 rfl,
    h.2.2.2.2.2.2.2.2.2.2.2.2 rfl⟩

/-- C7: `authorizationParams` is a pure function of the configuration whose
output holds exactly the seven keys `device_id`, `state`, `sandbox`,
`bank_id`, `boom_token`, `response_type` (constantly "code") and
`client_id`, each bound to the corresponding configuration field. -/
theorem authorizationParams_exact (c : Config) :
    (Strategy.authorizationParams c).map Prod.fst =
      ["device_id", "state", "sandbox", "bank_id", "boom_token",
       "response_type", "client_id"]
    ∧ Strategy.authorizationParams c =
      [ ("device_id", .str c.deviceId), ("state", .str c.state),
        ("sandbox", .bool c.sandbox), ("bank_id", .str c.bankId),
        ("boom_token", .str c.boomToken), ("response_type", .str "code"),
        ("client_id", .str c.clientID) ] :=
  ⟨rfl, rfl⟩

/-- C8: on a transport error whose `err.data` parses as JSON with an
object-typed `error` field, line 193 calls the undefined constructor
`BoomrangAPIError`, so the code throws a ReferenceError instead of passing
the typed error the claim describes to the callback; every other transport
error is wrapped in the generic "Failed to fetch user profile" error. -/
theorem userProfile_reference_error :
    Strategy.userProfileOnError (some (.obj [("error",
        .obj [("message", .str "m"), ("type", .str "t"), ("code", .num 1),
          ("error_subcode", .num 2)])])) = .referenceError
    ∧ Strategy.userProfileOnError none =
        .internalOAuthError "Failed to fetch user profile" :=
  ⟨rfl, rfl⟩

/-- C9: profile normalization is idempotent: renormalizing an already
normalized profile changes nothing (in particular the `provider` and
`bankId` fields are unchanged). -/
theorem normalizeProfile_idem (bankId : String) (fields : List (String × Json)) :
    normalizeProfile bankId (normalizeProfile bankId fields) =
      normalizeProfile bankId fields := by
  have key : ∀ (fs : List (String × Json)) (X : Json),
      setField (setField (setField (setField fs "provider" (.str "tosan"))
          "bankId" X) "provider" (.str "tosan")) "bankId" X =
        setField (setField fs "provider" (.str "tosan")) "bankId" X := by
    intro fs X
    rw [setField_of_lookup (setField (setField fs "provider" (.str "tosan"))
        "bankId" X) "provider" (.str "tosan") (by
          rw [lookup_setField_ne _ "provider" "bankId" X (by decide)]
          exact lookup_setField_self fs "provider" (.str "tosan")),
      setField_of_lookup _ "bankId" X (lookup_setField_self _ "bankId" X)]
  by_cases hbv : bankId = "BOOMIR"
  · subst hbv
    simp only [normalizeProfile, reduceIte]
    exact key fields (.str "ANSBIR")
  · simp only [normalizeProfile, if_neg hbv]
    exact key fields (.str bankId)

/-- C10: every `TosanTokenError` and every `TosanAuthorizationError`,
whatever the constructor arguments, carries status 500 and the name of its
variant. -/
theorem error_status_and_name (m t cd sc : Json) (msg : Option String)
    (ac : Option Int) :
    (mkTosanTokenError m t cd sc).status = 500
    ∧ (mkTosanTokenError m t cd sc).name = "TosanTokenError"
    ∧ (mkTosanAuthorizationError msg ac).status = 500
    ∧ (mkTosanAuthorizationError msg ac).name = "TosanAuthorizationError" :=
  ⟨rfl, rfl, rfl, rfl⟩
